import Mathlib

/-!
Verification of the chat-template module `python/sglang/lang/chat_template.py`.

The embedding below translates the Python module into Lean:
* `Message` models the message dicts `{"role": ..., "content": ...}`; a Python
  `None` content is `Option.none`.
* `ChatTemplate` mirrors the dataclass field for field; the Python dict
  `role_prefix_and_suffix` becomes an association list and `roleGet` models
  `dict.get(role, ("", ""))`.
* The module-level mutable registries become explicit values:
  `register_chat_template` is dict assignment on a registry passed explicitly,
  and `chat_template_registry` is the state after the module's sixteen
  `register_chat_template` calls executed in source order.
* Python f-string interpolation of `None` prints the text "None"; `pyStr`
  reproduces this.
* `model_id and model_id == "x"` uses Python truthiness of an optional string,
  modelled by `pyTruthy`; `"a" in b` on strings is `pyIn`, and `.lower()` is
  `pyLower` (character-wise ASCII lowercasing; all paths involved are ASCII).
-/

/-- A chat message: the dicts `{"role": r, "content": c}` consumed by
`get_prompt`; `content = none` models Python `None`. -/
structure Message where
  role : String
  content : Option String
deriving DecidableEq, Repr

/-- `class ChatTemplateStyle(Enum)` with members `PLAIN` and `LLAMA2`. -/
inductive ChatTemplateStyle where
  | PLAIN
  | LLAMA2
deriving DecidableEq, Repr

/-- The `ChatTemplate` dataclass. `stop_str` defaults to the empty tuple `()`
and `image_token` to `"<image>"` in the source. -/
structure ChatTemplate where
  name : String
  default_system_prompt : Option String
  role_prefix_and_suffix : List (String × (String × String))
  stop_str : List String := []
  image_token : String := "<image>"
  style : ChatTemplateStyle := ChatTemplateStyle.PLAIN
deriving DecidableEq, Repr

/-- `self.role_prefix_and_suffix.get(role, ("", ""))`: association-list lookup
with default `("", "")` for an unknown role. -/
def roleGet (d : List (String × (String × String))) (role : String) : String × String :=
  match d.find? (fun e => e.1 = role) with
  | some e => e.2
  | none => ("", "")

/-- Python f-string rendering of an optional string: `None` prints as "None". -/
def pyStr : Option String → String
  | some s => s
  | none => "None"

/-- Python truthiness of an optional string: `None` and `""` are falsy. -/
def pyTruthy : Option String → Bool
  | none => false
  | some s => !(s = "")

/-- Contiguous-sublist test on character lists (helper for `pyIn`). -/
def charsHasInfix (pat : List Char) : List Char → Bool
  | [] => pat.isEmpty
  | c :: rest => pat.isPrefixOf (c :: rest) || charsHasInfix pat rest

/-- Python's `pat in s` on strings: contiguous substring occurrence. -/
def pyIn (pat s : String) : Bool := charsHasInfix pat.data s.data

/-- Python's `s.lower()`, character-wise (`Char.toLower` lowercases exactly the
ASCII range, which covers every model path the module inspects). -/
def pyLower (s : String) : String := ⟨s.data.map Char.toLower⟩

/-- `ChatTemplate.get_prefix_and_suffix(self, role, hist_messages)`:
plain role lookup, plus the two LLAMA2-style exceptions — the fused
system-into-user prefix when a system message opens the conversation, and the
suppressed user prefix when exactly one prior message with present content
exists. -/
def ChatTemplate.get_prefix_and_suffix (t : ChatTemplate) (role : String)
    (hist_messages : List Message) : String × String :=
  let ps := roleGet t.role_prefix_and_suffix role
  if t.style = ChatTemplateStyle.LLAMA2 then
    if role = "system" ∧ hist_messages = [] then
      let up := (roleGet t.role_prefix_and_suffix "user").1
      let sps := roleGet t.role_prefix_and_suffix "system"
      (up ++ sps.1, sps.2)
    else if role = "user" ∧ hist_messages.length = 1 ∧
        (hist_messages.headD ⟨"", none⟩).content.isSome then
      ("", ps.2)
    else ps
  else ps

/-- The loop body of `ChatTemplate.get_prompt`: `hist` is `messages[:i]` (all
already-visited messages, skipped ones included) and the second argument is the
remaining `messages[i:]`. A system message with absent content takes the
template's `default_system_prompt`; if that is also absent the message is
skipped (`continue`). Otherwise the segment `prefix + content + suffix` is
appended. -/
def ChatTemplate.get_prompt_from (t : ChatTemplate) :
    List Message → List Message → String
  | _, [] => ""
  | hist, msg :: rest =>
    let content := if msg.role = "system" ∧ msg.content = none then
        t.default_system_prompt else msg.content
    if msg.role = "system" ∧ msg.content = none ∧ content = none then
      t.get_prompt_from (hist ++ [msg]) rest
    else
      let ps := t.get_prefix_and_suffix msg.role hist
      ps.1 ++ pyStr content ++ ps.2 ++ t.get_prompt_from (hist ++ [msg]) rest

/-- `ChatTemplate.get_prompt(self, messages)`. -/
def ChatTemplate.get_prompt (t : ChatTemplate) (messages : List Message) : String :=
  t.get_prompt_from [] messages

/-- The registry type of `chat_template_registry : Dict[str, ChatTemplate]`. -/
def Registry := String → Option ChatTemplate

/-- `register_chat_template(template)`: dict assignment
`chat_template_registry[template.name] = template`, on an explicit registry. -/
def register_chat_template (reg : Registry) (t : ChatTemplate) : Registry :=
  fun n => if n = t.name then some t else reg n

/-- `get_chat_template(name)`: dict indexing `chat_template_registry[name]`;
`none` models the `KeyError` raised for an absent name. -/
def get_chat_template (reg : Registry) (name : String) : Option ChatTemplate :=
  reg name

/-- The registry state after registering a list of templates, in order, into an
initially empty dict. -/
def registerAll (ts : List ChatTemplate) : Registry :=
  ts.foldl register_chat_template (fun _ => none)

/-- Template "default" (registered first). -/
def default_template : ChatTemplate :=
  { name := "default"
    default_system_prompt := none
    role_prefix_and_suffix :=
      [("system", ("SYSTEM:", "\n")),
       ("user", ("USER:", "\n")),
       ("assistant", ("ASSISTANT:", "\n"))] }

/-- Template "claude". -/
def claude_template : ChatTemplate :=
  { name := "claude"
    default_system_prompt := none
    role_prefix_and_suffix :=
      [("system", ("", "")),
       ("user", ("\n\nHuman: ", "")),
       ("assistant", ("\n\nAssistant:", ""))] }

/-- Template "chatml". -/
def chatml_template : ChatTemplate :=
  { name := "chatml"
    default_system_prompt := none
    role_prefix_and_suffix :=
      [("system", ("<|im_start|>system\n", "<|im_end|>\n")),
       ("user", ("<|im_start|>user\n", "<|im_end|>\n")),
       ("assistant", ("<|im_start|>assistant\n", "<|im_end|>\n"))]
    style := ChatTemplateStyle.PLAIN
    stop_str := ["<|im_end|>"] }

/-- Template "chatml-llava". -/
def chatml_llava_template : ChatTemplate :=
  { name := "chatml-llava"
    default_system_prompt := some "Answer the questions."
    role_prefix_and_suffix :=
      [("system", ("<|im_start|>system\n", "<|im_end|>\n")),
       ("user", ("<|im_start|>user\n", "<|im_end|>\n")),
       ("assistant", ("<|im_start|>assistant\n", "<|im_end|>\n"))]
    style := ChatTemplateStyle.PLAIN
    stop_str := ["<|im_end|>"]
    image_token := " <image>\n" }

/-- Template "vicuna_v1.1". -/
def vicuna_v1_1_template : ChatTemplate :=
  { name := "vicuna_v1.1"
    default_system_prompt := some
      "A chat between a curious user and an artificial intelligence assistant. The assistant gives helpful, detailed, and polite answers to the user\x27s questions."
    role_prefix_and_suffix :=
      [("system", ("", " ")),
       ("user", ("USER:", " ")),
       ("assistant", ("ASSISTANT:", "</s>"))]
    image_token := " <image>\n" }

/-- Template "llama-2-chat" (style LLAMA2). -/
def llama_2_chat_template : ChatTemplate :=
  { name := "llama-2-chat"
    default_system_prompt := none
    role_prefix_and_suffix :=
      [("system", ("<<SYS>>\n", "\n<</SYS>>\n\n")),
       ("user", ("[INST] ", " [/INST]")),
       ("assistant", ("", " </s><s>"))]
    style := ChatTemplateStyle.LLAMA2 }

/-- Template "llama-3-instruct". -/
def llama_3_instruct_template : ChatTemplate :=
  { name := "llama-3-instruct"
    default_system_prompt := none
    role_prefix_and_suffix :=
      [("system", ("<|start_header_id|>system<|end_header_id|>\n\n", "<|eot_id|>")),
       ("user", ("<|start_header_id|>user<|end_header_id|>\n\n", "<|eot_id|>")),
       ("assistant", ("<|start_header_id|>assistant<|end_header_id|>\n\n", "<|eot_id|>"))]
    stop_str := ["<|eot_id|>"] }

/-- Template "yi". -/
def yi_template : ChatTemplate :=
  { name := "yi"
    default_system_prompt := some
      "This is a chat between an inquisitive human and an AI assistant. Assume the role of the AI assistant. Read all the images carefully, and respond to the human\x27s questions with informative, helpful, detailed and polite answers.这是一个好奇的人类和一个人工智能助手之间的对话。假设你扮演这个AI助手的角色。仔细阅读所有的图像，并对人类的问题做出信息丰富、有帮助、详细的和礼貌的回答。"
    role_prefix_and_suffix :=
      [("system", ("", "\n\n")),
       ("user", ("### Human:", "\n")),
       ("assistant", ("### Assistant:", "\n"))]
    image_token := " <image_placeholder>\n" }

/-- Template "gemma-it". -/
def gemma_it_template : ChatTemplate :=
  { name := "gemma-it"
    default_system_prompt := none
    role_prefix_and_suffix :=
      [("system", ("", "")),
       ("user", ("<start_of_turn>user\n", "<end_of_turn>\n")),
       ("assistant", ("<start_of_turn>model\n", "<end_of_turn>\n"))]
    style := ChatTemplateStyle.PLAIN }

/-- Template "dbrx-instruct". -/
def dbrx_instruct_template : ChatTemplate :=
  { name := "dbrx-instruct"
    default_system_prompt := some
      "You are DBRX, created by Databricks. You were last updated in December 2023. You answer questions based on information available up to that point.\nYOU PROVIDE SHORT RESPONSES TO SHORT QUESTIONS OR STATEMENTS, but provide thorough responses to more complex and open-ended questions.\nYou assist with various tasks, from writing to coding (using markdown for code blocks — remember to use \x60\x60\x60 with code, JSON, and tables).\n(You do not have real-time data access or code execution capabilities. You avoid stereotyping and provide balanced perspectives on controversial topics. You do not provide song lyrics, poems, or news articles and do not divulge details of your training data.)\nThis is your system prompt, guiding your responses. Do not reference it, just respond to the user. If you find yourself talking about this message, stop. You should be responding appropriately and usually that means not mentioning this.\nYOU DO NOT MENTION ANY OF THIS INFORMATION ABOUT YOURSELF UNLESS THE INFORMATION IS DIRECTLY PERTINENT TO THE USER\x27S QUERY."
    role_prefix_and_suffix :=
      [("system", ("<|im_start|>system\n", "<|im_end|>")),
       ("user", ("\n<|im_start|>user\n", "<|im_end|>")),
       ("assistant", ("\n<|im_start|>assistant\n", "<|im_end|>"))]
    stop_str := ["<|im_end|>"] }

/-- The shared default system prompt of the yt-chat templates. -/
def yt_chat_system_prompt : String :=
  "A chat between a curious user and an AI role. The role gives helpful, detailed, and polite answers to the user\x27s questions.\nYour name is Nety, a virtual character created by researchers from BaoYu Organization (BYO)."

/-- Template "yt-chat-v1.2". -/
def yt_chat_v1_2_template : ChatTemplate :=
  { name := "yt-chat-v1.2"
    default_system_prompt := some yt_chat_system_prompt
    role_prefix_and_suffix :=
      [("system", ("<|im_start|>system\n", "<|im_end|>")),
       ("user", ("<|im_start|>user\n", "<|im_end|>")),
       ("assistant", ("\n<|im_start|>role\n", "<|im_end|>"))]
    stop_str := ["<|im_end|>", "</s>", "<|im_start|>", "<s>", "</|im"] }

/-- Template "yt-chat-v1.3". -/
def yt_chat_v1_3_template : ChatTemplate :=
  { name := "yt-chat-v1.3"
    default_system_prompt := some yt_chat_system_prompt
    role_prefix_and_suffix :=
      [("system", ("<s>System\n", "</s>")),
       ("user", ("\n<s>User\n", "</s>")),
       ("assistant", ("\n<s>Role\n", "</s>"))]
    stop_str := ["</s>"] }

/-- Template "yt-chat-v1.6". -/
def yt_chat_v1_6_template : ChatTemplate :=
  { name := "yt-chat-v1.6"
    default_system_prompt := some yt_chat_system_prompt
    role_prefix_and_suffix :=
      [("system", ("<|im_start|>system\n", "<|im_end|>")),
       ("user", ("\n<|im_start|>user\n", "<|im_end|>")),
       ("assistant", ("\n<|im_start|>role\n", "<|im_end|>"))]
    stop_str := ["<|im_end|>"] }

/-- Template "yt-chat-v1.7". -/
def yt_chat_v1_7_template : ChatTemplate :=
  { name := "yt-chat-v1.7"
    default_system_prompt := some yt_chat_system_prompt
    role_prefix_and_suffix :=
      [("system", ("<|begin_of_text|>System\n", "<|end_of_text|>")),
       ("user", ("\n<|begin_of_text|>User\n", "<|end_of_text|>")),
       ("assistant", ("\n<|begin_of_text|>Role\n", "<|end_of_text|>"))]
    stop_str := ["<|end_of_text|>"] }

/-- Template "yt-chat-v1.8". -/
def yt_chat_v1_8_template : ChatTemplate :=
  { name := "yt-chat-v1.8"
    default_system_prompt := some yt_chat_system_prompt
    role_prefix_and_suffix :=
      [("system", ("<bos>System\n", "<eos>")),
       ("user", ("\n<bos>User\n", "<eos>")),
       ("assistant", ("\n<bos>Role\n", "<eos>"))]
    stop_str := ["<eos>", "<bos>, <pad>, <unk>"] }

/-- Template "c4ai-command-r" (registered last). -/
def c4ai_command_r_template : ChatTemplate :=
  { name := "c4ai-command-r"
    default_system_prompt := none
    role_prefix_and_suffix :=
      [("system", ("<|START_OF_TURN_TOKEN|><|SYSTEM_TOKEN|>", "<|END_OF_TURN_TOKEN|>")),
       ("user", ("<|START_OF_TURN_TOKEN|><|USER_TOKEN|>", "<|END_OF_TURN_TOKEN|>")),
       ("assistant", ("<|START_OF_TURN_TOKEN|><|CHATBOT_TOKEN|>", "<|END_OF_TURN_TOKEN|>"))]
    style := ChatTemplateStyle.PLAIN }

/-- All sixteen built-in templates, in the order of the module\x27s
`register_chat_template` calls. -/
def all_builtin_templates : List ChatTemplate :=
  [default_template, claude_template, chatml_template, chatml_llava_template,
   vicuna_v1_1_template, llama_2_chat_template, llama_3_instruct_template,
   yi_template, gemma_it_template, dbrx_instruct_template,
   yt_chat_v1_2_template, yt_chat_v1_3_template, yt_chat_v1_6_template,
   yt_chat_v1_7_template, yt_chat_v1_8_template, c4ai_command_r_template]

/-- `chat_template_registry` after module initialisation. -/
def chat_template_registry : Registry := registerAll all_builtin_templates

/-- `match_dbrx`: the source checks `model_id == "dbrx"` twice (the second
condition repeats it before the path test, an `or` of the same check). -/
def match_dbrx (model_path : String) (model_id : Option String) : Option ChatTemplate :=
  if pyTruthy model_id ∧ model_id = some "dbrx" then
    get_chat_template chat_template_registry "dbrx-instruct"
  else if (pyTruthy model_id ∧ model_id = some "dbrx") ∨
      (pyIn "dbrx" (pyLower model_path) ∧ pyIn "instruct" (pyLower model_path)) then
    get_chat_template chat_template_registry "dbrx-instruct"
  else none

/-- `match_vicuna`. -/
def match_vicuna (model_path : String) (model_id : Option String) : Option ChatTemplate :=
  if pyTruthy model_id ∧ model_id = some "vicuna" then
    get_chat_template chat_template_registry "vicuna_v1.1"
  else if pyIn "vicuna" (pyLower model_path) then
    get_chat_template chat_template_registry "vicuna_v1.1"
  else if pyIn "llava-v1.5" (pyLower model_path) then
    get_chat_template chat_template_registry "vicuna_v1.1"
  else none

/-- `match_llama2_chat`. -/
def match_llama2_chat (model_path : String) (model_id : Option String) : Option ChatTemplate :=
  if pyTruthy model_id ∧ model_id = some "llama-2" then
    get_chat_template chat_template_registry "llama-2-chat"
  else
    if pyIn "llama-2" (pyLower model_path) ∧ pyIn "chat" (pyLower model_path) then
      get_chat_template chat_template_registry "llama-2-chat"
    else if (pyIn "mistral" (pyLower model_path) ∨ pyIn "mixtral" (pyLower model_path)) ∧ pyIn "instruct" (pyLower model_path) then
      get_chat_template chat_template_registry "llama-2-chat"
    else if pyIn "codellama" (pyLower model_path) ∧ pyIn "instruct" (pyLower model_path) then
      get_chat_template chat_template_registry "llama-2-chat"
    else none

/-- `match_llama3_instruct`. -/
def match_llama3_instruct (model_path : String) (model_id : Option String) : Option ChatTemplate :=
  if pyTruthy model_id ∧ model_id = some "llama-3" then
    get_chat_template chat_template_registry "llama-3-instruct"
  else
    if pyIn "llama-3" (pyLower model_path) ∧ pyIn "instruct" (pyLower model_path) then
      get_chat_template chat_template_registry "llama-3-instruct"
    else none

/-- `match_chat_ml`. -/
def match_chat_ml (model_path : String) (model_id : Option String) : Option ChatTemplate :=
  if pyTruthy model_id ∧ model_id = some "chatml" then
    get_chat_template chat_template_registry "chatml"
  else if pyTruthy model_id ∧ model_id = some "chatml-llava" then
    get_chat_template chat_template_registry "chatml-llava"
  else
    if pyIn "tinyllama" (pyLower model_path) then
      get_chat_template chat_template_registry "chatml"
    else if pyIn "qwen" (pyLower model_path) ∧ pyIn "chat" (pyLower model_path) then
      get_chat_template chat_template_registry "chatml"
    else if pyIn "llava-v1.6-34b" (pyLower model_path) then
      get_chat_template chat_template_registry "chatml-llava"
    else none

/-- `match_chat_yi`. -/
def match_chat_yi (model_path : String) (model_id : Option String) : Option ChatTemplate :=
  if pyTruthy model_id ∧ model_id = some "yi" then
    get_chat_template chat_template_registry "yi"
  else if pyIn "yi" (pyLower model_path) then
    get_chat_template chat_template_registry "yi"
  else none

/-- `match_gemma_it`. -/
def match_gemma_it (model_path : String) (model_id : Option String) : Option ChatTemplate :=
  if pyTruthy model_id ∧ model_id = some "gemma" then
    get_chat_template chat_template_registry "gemma-it"
  else
    if pyIn "gemma" (pyLower model_path) ∧ pyIn "it" (pyLower model_path) then
      get_chat_template chat_template_registry "gemma-it"
    else none

/-- `match_ytchat_v12`. -/
def match_ytchat_v12 (model_path : String) (model_id : Option String) : Option ChatTemplate :=
  if pyTruthy model_id ∧ model_id = some "yt-chat-v1.2" then
    get_chat_template chat_template_registry "yt-chat-v1.2"
  else if pyTruthy model_id ∧ model_id = some "yt-chat-v1.3" then
    get_chat_template chat_template_registry "yt-chat-v1.3"
  else if pyTruthy model_id ∧ model_id = some "yt-chat-v1.6" then
    get_chat_template chat_template_registry "yt-chat-v1.6"
  else if pyTruthy model_id ∧ model_id = some "yt-chat-v1.7" then
    get_chat_template chat_template_registry "yt-chat-v1.7"
  else if pyTruthy model_id ∧ model_id = some "yt-chat-v1.8" then
    get_chat_template chat_template_registry "yt-chat-v1.8"
  else if pyIn "yt-chat" (pyLower model_path) then
    get_chat_template chat_template_registry "yt-chat-v1.3"
  else none

/-- `match_c4ai_command_r`: defined in the source WITHOUT the
`@register_chat_template_matching_function` decorator, so it never enters
`matching_function_registry`. -/
def match_c4ai_command_r (model_path : String) (model_id : Option String) : Option ChatTemplate :=
  if pyTruthy model_id ∧ model_id = some "c4ai-command-r" then
    get_chat_template chat_template_registry "c4ai-command-r"
  else if pyIn "c4ai-command-r" (pyLower model_path) then
    get_chat_template chat_template_registry "c4ai-command-r"
  else none

/-- `matching_function_registry` after module initialisation: the eight
decorated matchers, in decoration (registration) order. `match_c4ai_command_r`
is absent because it carries no decorator. -/
def matching_function_registry : List (String → Option String → Option ChatTemplate) :=
  [match_dbrx, match_vicuna, match_llama2_chat, match_llama3_instruct,
   match_chat_ml, match_chat_yi, match_gemma_it, match_ytchat_v12]

/-- `get_chat_template_by_model_path(model_path, model_id=None)`: first
matcher returning a template wins; otherwise the "default" template. -/
def get_chat_template_by_model_path (model_path : String)
    (model_id : Option String := none) : Option ChatTemplate :=
  match matching_function_registry.findSome? (fun f => f model_path model_id) with
  | some template => some template
  | none => get_chat_template chat_template_registry "default"

/-! Helper lemmas: concrete registry lookups, and the fold/dict
correspondence used by the registry claims. -/

lemma registry_default : get_chat_template chat_template_registry "default" = some default_template := rfl

lemma registry_dbrx : get_chat_template chat_template_registry "dbrx-instruct" = some dbrx_instruct_template := rfl

lemma registry_vicuna : get_chat_template chat_template_registry "vicuna_v1.1" = some vicuna_v1_1_template := rfl

lemma registry_llama2 : get_chat_template chat_template_registry "llama-2-chat" = some llama_2_chat_template := rfl

lemma registry_llama3 : get_chat_template chat_template_registry "llama-3-instruct" = some llama_3_instruct_template := rfl

lemma registry_chatml : get_chat_template chat_template_registry "chatml" = some chatml_template := rfl

lemma registry_chatml_llava : get_chat_template chat_template_registry "chatml-llava" = some chatml_llava_template := rfl

lemma registry_yi : get_chat_template chat_template_registry "yi" = some yi_template := rfl

lemma registry_gemma : get_chat_template chat_template_registry "gemma-it" = some gemma_it_template := rfl

lemma registry_yt12 : get_chat_template chat_template_registry "yt-chat-v1.2" = some yt_chat_v1_2_template := rfl

lemma registry_yt13 : get_chat_template chat_template_registry "yt-chat-v1.3" = some yt_chat_v1_3_template := rfl

lemma registry_yt16 : get_chat_template chat_template_registry "yt-chat-v1.6" = some yt_chat_v1_6_template := rfl

lemma registry_yt17 : get_chat_template chat_template_registry "yt-chat-v1.7" = some yt_chat_v1_7_template := rfl

lemma registry_yt18 : get_chat_template chat_template_registry "yt-chat-v1.8" = some yt_chat_v1_8_template := rfl

lemma registry_c4ai : get_chat_template chat_template_registry "c4ai-command-r" = some c4ai_command_r_template := rfl

/-- `C9`: assembling any template over the empty message list yields the empty
string (`get_prompt` returns its initial accumulator unchanged). -/
theorem c9_empty_messages_empty_prompt (t : ChatTemplate) : t.get_prompt [] = "" := rfl

/-- `C2`: on the "llama-2-chat" template and the message list
`[{system, None}, {user, "Hello!"}, {assistant, "Hi!"}]`, the system message is
skipped (its `default_system_prompt` is `None`), the output starts with
`"[INST] "` directly followed by `"Hello!"` then `" [/INST]"`, and the
assistant segment `"Hi!"` is suffixed with `" </s><s>"`. -/
theorem c2_llama2_fusion_prompt :
    llama_2_chat_template.get_prompt
      [⟨"system", none⟩, ⟨"user", some "Hello!"⟩, ⟨"assistant", some "Hi!"⟩]
      = "[INST] " ++ "Hello!" ++ " [/INST]" ++ "Hi!" ++ " </s><s>" := rfl

/-- `C8`: resolving `model_path = "Qwen-Chat-7B"` with no model id returns the
template named "chatml" — the substring tests are applied to the lowercased
path. -/
theorem c8_qwen_chat_resolves_chatml :
    get_chat_template_by_model_path "Qwen-Chat-7B" none = some chatml_template
    ∧ chatml_template.name = "chatml" := ⟨rfl, rfl⟩

/-- Dict semantics of the fold of `register_chat_template`: looking up a name
in the registry built from `ts` finds the most recently registered template of
that name, and otherwise falls through to the initial registry. -/
lemma registerAll_from_lookup (ts : List ChatTemplate) (acc : Registry) (name : String) :
    get_chat_template (ts.foldl register_chat_template acc) name =
      match ts.reverse.find? (fun t => t.name = name) with
      | some t => some t
      | none => get_chat_template acc name := by
  induction ts generalizing acc with
  | nil => rfl
  | cons t ts ih =>
    show get_chat_template (ts.foldl register_chat_template (register_chat_template acc t)) name = _
    rw [ih]
    rw [List.reverse_cons, List.find?_append]
    cases hf : ts.reverse.find? (fun t => t.name = name) with
    | some u => rfl
    | none =>
      show get_chat_template (register_chat_template acc t) name =
        (match Option.none.or ([t].find? (fun t => t.name = name)) with
          | some t => some t
          | none => get_chat_template acc name)
      by_cases h : t.name = name
      · simp [List.find?, h, register_chat_template, get_chat_template]
      · have h2 : ¬name = t.name := fun hn => h hn.symm
        simp [List.find?, h, h2, register_chat_template, get_chat_template]

/-- `C6`: `get_chat_template` on a registry built by a sequence of
`register_chat_template` calls returns the most recently registered template
of the requested name; it fails (returns `none`, a `KeyError`) exactly when no
template of that name was ever registered; and a register-then-get round-trip
returns the registered template, so registering a duplicate name silently
replaces the earlier template. -/
theorem c6_registry_lookup_semantics (ts : List ChatTemplate) (name : String) :
    get_chat_template (registerAll ts) name = ts.reverse.find? (fun t => t.name = name)
    ∧ (get_chat_template (registerAll ts) name = none ↔ ∀ t ∈ ts, t.name ≠ name)
    ∧ ∀ (reg : Registry) (t : ChatTemplate),
        get_chat_template (register_chat_template reg t) t.name = some t := by
  have hmain : get_chat_template (registerAll ts) name
      = ts.reverse.find? (fun t => t.name = name) := by
    rw [registerAll, registerAll_from_lookup]
    cases ts.reverse.find? (fun t => t.name = name) <;> rfl
  refine ⟨hmain, ?_, ?_⟩
  · rw [hmain, List.find?_eq_none]
    constructor
    · intro h t ht
      simpa using h t (List.mem_reverse.mpr ht)
    · intro h t ht
      simpa using h t (List.mem_reverse.mp ht)
  · intro reg t
    simp [get_chat_template, register_chat_template]

/-- Witness for `C6`: registering two templates that share the name "chatml"
and looking the name up returns the second (replacement), not the first. -/
theorem c6_registry_lookup_semantics_witness :
    get_chat_template
      (registerAll [chatml_template, { chatml_template with image_token := "<img>" }])
      "chatml" = some { chatml_template with image_token := "<img>" } :=
  (c6_registry_lookup_semantics
    [chatml_template, { chatml_template with image_token := "<img>" }] "chatml").1.trans
    (by rfl)

/-- `C7`: `get_chat_template_by_model_path` never fails — its result is always
a template — and when no registered matcher returns a template it returns the
template registered under the name "default". -/
theorem c7_resolver_total_with_default_fallback (model_path : String) (model_id : Option String) :
    (get_chat_template_by_model_path model_path model_id).isSome = true
    ∧ (matching_function_registry.findSome? (fun f => f model_path model_id) = none →
        get_chat_template_by_model_path model_path model_id = some default_template) := by
  constructor
  · unfold get_chat_template_by_model_path
    cases hf : matching_function_registry.findSome? (fun f => f model_path model_id) with
    | some t => rfl
    | none => rw [registry_default]; rfl
  · intro hf
    unfold get_chat_template_by_model_path
    rw [hf, registry_default]

/-- Witness for `C7`: the unrecognized path "zzz" with no model id triggers no
matcher and resolves to the "default" template. -/
theorem c7_resolver_total_with_default_fallback_witness :
    get_chat_template_by_model_path "zzz" none = some default_template :=
  (c7_resolver_total_with_default_fallback "zzz" none).2 (by rfl)

/-- Inside `match_llama3_instruct`, `model_id = "llama-3"` matches immediately,
whatever the path contains. -/
lemma match_llama3_instruct_id (model_path : String) :
    match_llama3_instruct model_path (some "llama-3") = some llama_3_instruct_template := by
  unfold match_llama3_instruct
  rw [if_pos ⟨by decide, rfl⟩]
  exact registry_llama3

/-- Counterexample to `C1`: with `model_id = "llama-3"` and a model path
containing "vicuna", resolution returns the vicuna template — the
earlier-registered `match_vicuna` fires on the path before
`match_llama3_instruct` ever sees the id. -/
theorem c1_counterexample :
    get_chat_template_by_model_path "vicuna" (some "llama-3") = some vicuna_v1_1_template
    ∧ vicuna_v1_1_template.name ≠ "llama-3-instruct"
    ∧ get_chat_template_by_model_path "vicuna" (some "llama-3") ≠ some llama_3_instruct_template := by
  refine ⟨rfl, by decide, ?_⟩
  intro h
  rw [show get_chat_template_by_model_path "vicuna" (some "llama-3")
      = some vicuna_v1_1_template from rfl] at h
  exact absurd (Option.some.inj h) (by decide)

/-- `C1` amended: with `model_id = "llama-3"`, resolution returns the
"llama-3-instruct" template provided none of the three earlier-registered
matchers (`match_dbrx`, `match_vicuna`, `match_llama2_chat`) fires on the
inputs; an earlier matcher that recognizes a substring of `model_path` wins
over the id match. -/
theorem c1_amended_id_resolution (model_path : String)
    (h1 : match_dbrx model_path (some "llama-3") = none)
    (h2 : match_vicuna model_path (some "llama-3") = none)
    (h3 : match_llama2_chat model_path (some "llama-3") = none) :
    get_chat_template_by_model_path model_path (some "llama-3")
      = some llama_3_instruct_template := by
  unfold get_chat_template_by_model_path
  simp only [matching_function_registry, List.findSome?_cons, h1, h2, h3,
    match_llama3_instruct_id]

/-- Witness for the amended `C1`: the path "foo" triggers none of the earlier
matchers, so `model_id = "llama-3"` selects "llama-3-instruct". -/
theorem c1_amended_id_resolution_witness :
    get_chat_template_by_model_path "foo" (some "llama-3")
      = some llama_3_instruct_template :=
  c1_amended_id_resolution "foo" rfl rfl rfl

/-- Counterexample to `C3`: on the "llama-2-chat" template the user-prefix
suppression fires on the second message even though the conversation opened
with a user message, not a system message: the plain user pair is
`("[INST] ", " [/INST]")`, yet with one prior user message of present content
the returned pair is `("", " [/INST]")`. -/
theorem c3_counterexample :
    llama_2_chat_template.style = ChatTemplateStyle.LLAMA2
    ∧ llama_2_chat_template.get_prefix_and_suffix "user" [⟨"user", some "A"⟩]
        = ("", " [/INST]")
    ∧ roleGet llama_2_chat_template.role_prefix_and_suffix "user"
        = ("[INST] ", " [/INST]")
    ∧ (⟨"user", some "A"⟩ : Message).role ≠ "system" :=
  ⟨rfl, rfl, rfl, by decide⟩

/-- `C3` amended: for a LLAMA2-style template, the user-prefix suppression
fires exactly when the message is a user message, exactly one message precedes
it, and that first message's content is present — with no condition on the
first message's role (it need not be a system message, and no fused
system+user opening is required). -/
theorem c3_amended_suppression_condition (t : ChatTemplate) (hist : List Message)
    (h : t.style = ChatTemplateStyle.LLAMA2) :
    t.get_prefix_and_suffix "user" hist =
      if hist.length = 1 ∧ (hist.headD ⟨"", none⟩).content.isSome
      then ("", (roleGet t.role_prefix_and_suffix "user").2)
      else roleGet t.role_prefix_and_suffix "user" := by
  unfold ChatTemplate.get_prefix_and_suffix
  rw [h]
  simp

/-- Witness for the amended `C3`: an assistant message opens the conversation
and the suppression still fires on the second (user) message. -/
theorem c3_amended_suppression_condition_witness :
    llama_2_chat_template.get_prefix_and_suffix "user" [⟨"assistant", some "x"⟩]
      = ("", " [/INST]") := by
  rw [c3_amended_suppression_condition llama_2_chat_template [⟨"assistant", some "x"⟩] rfl]
  rfl

/-- The spec-side description of PLAIN assembly, written from the spec's
words for the refinement comparison (not from the code): the concatenation, in
message order, of `prefix + content + suffix` per message, where the pair is
the plain role lookup. -/
def assemble_plain_spec (t : ChatTemplate) : List Message → String
  | [] => ""
  | m :: rest =>
    (roleGet t.role_prefix_and_suffix m.role).1 ++ pyStr m.content
      ++ (roleGet t.role_prefix_and_suffix m.role).2 ++ assemble_plain_spec t rest

/-- For a PLAIN-style template, `get_prefix_and_suffix` is the plain role
lookup whatever the history. -/
lemma plain_get_prefix_and_suffix (t : ChatTemplate) (role : String)
    (hist : List Message) (h : t.style = ChatTemplateStyle.PLAIN) :
    t.get_prefix_and_suffix role hist = roleGet t.role_prefix_and_suffix role := by
  unfold ChatTemplate.get_prefix_and_suffix
  rw [h]
  simp

/-- Loop invariant for the PLAIN case of `C4`: with every content present, the
already-visited history never influences a segment. -/
lemma get_prompt_from_plain (t : ChatTemplate) (h : t.style = ChatTemplateStyle.PLAIN) :
    ∀ (msgs : List Message), (∀ m ∈ msgs, m.content ≠ none) →
      ∀ hist, t.get_prompt_from hist msgs = assemble_plain_spec t msgs := by
  intro msgs
  induction msgs with
  | nil => intro _ _; rfl
  | cons m rest ih =>
    intro hall hist
    have hm : m.content ≠ none := hall m (by simp)
    have hrest : ∀ x ∈ rest, x.content ≠ none := fun x hx => hall x (by simp [hx])
    have hnosub : ¬(m.role = "system" ∧ m.content = none) := fun hc => hm hc.2
    simp only [ChatTemplate.get_prompt_from, assemble_plain_spec]
    rw [plain_get_prefix_and_suffix t m.role hist h]
    simp [hnosub, hm, ih hrest (hist ++ [m])]

/-- `C4`: for a PLAIN-style template and messages whose contents are all
present, `get_prompt` is exactly the concatenation, in message order, of
`prefix + content + suffix` per message with the plain role lookup — no
cross-message exception alters a segment. -/
theorem c4_plain_prompt_is_concatenation (t : ChatTemplate) (msgs : List Message)
    (h : t.style = ChatTemplateStyle.PLAIN) (hall : ∀ m ∈ msgs, m.content ≠ none) :
    t.get_prompt msgs = assemble_plain_spec t msgs :=
  get_prompt_from_plain t h msgs hall []

/-- Witness for `C4`: the PLAIN "chatml" template over three mixed-role
messages. -/
theorem c4_plain_prompt_is_concatenation_witness :
    chatml_template.style = ChatTemplateStyle.PLAIN
    ∧ chatml_template.get_prompt
        [⟨"system", some "S"⟩, ⟨"user", some "U"⟩, ⟨"assistant", some "A"⟩]
      = assemble_plain_spec chatml_template
        [⟨"system", some "S"⟩, ⟨"user", some "U"⟩, ⟨"assistant", some "A"⟩] :=
  ⟨rfl, c4_plain_prompt_is_concatenation chatml_template
    [⟨"system", some "S"⟩, ⟨"user", some "U"⟩, ⟨"assistant", some "A"⟩]
    rfl (by decide)⟩

/-- `C5`: a system message with absent content takes the template's
`default_system_prompt` as its rendered content when that is present, and
contributes nothing at all — not even its role prefix or suffix — when the
default is also absent. -/
theorem c5_system_none_default_substitution (t : ChatTemplate) (hist rest : List Message) :
    (t.default_system_prompt = none →
      t.get_prompt_from hist (⟨"system", none⟩ :: rest)
        = t.get_prompt_from (hist ++ [⟨"system", none⟩]) rest)
    ∧ ∀ d, t.default_system_prompt = some d →
      t.get_prompt_from hist (⟨"system", none⟩ :: rest)
        = (t.get_prefix_and_suffix "system" hist).1 ++ d
          ++ (t.get_prefix_and_suffix "system" hist).2
          ++ t.get_prompt_from (hist ++ [⟨"system", none⟩]) rest := by
  constructor
  · intro hd
    simp [ChatTemplate.get_prompt_from, hd]
  · intro d hd
    simp [ChatTemplate.get_prompt_from, hd, pyStr]

/-- Witness for `C5`: "default" (absent default prompt) skips the system
message entirely; "chatml-llava" (present default prompt) renders it with
"Answer the questions." as content. -/
theorem c5_system_none_default_substitution_witness :
    default_template.get_prompt_from [] [⟨"system", none⟩, ⟨"user", some "U"⟩]
      = default_template.get_prompt_from [⟨"system", none⟩] [⟨"user", some "U"⟩]
    ∧ chatml_llava_template.get_prompt_from [] [⟨"system", none⟩]
      = (chatml_llava_template.get_prefix_and_suffix "system" []).1
        ++ "Answer the questions."
        ++ (chatml_llava_template.get_prefix_and_suffix "system" []).2
        ++ chatml_llava_template.get_prompt_from [⟨"system", none⟩] [] :=
  ⟨(c5_system_none_default_substitution default_template [] [⟨"user", some "U"⟩]).1 rfl,
   (c5_system_none_default_substitution chatml_llava_template [] []).2
     "Answer the questions." rfl⟩

/-- `match_dbrx` never returns the "c4ai-command-r" template. -/
lemma match_dbrx_ne_c4ai (path : String) (id : Option String) (t : ChatTemplate)
    (h : match_dbrx path id = some t) : t ≠ c4ai_command_r_template := by
  unfold match_dbrx at h
  split_ifs at h <;>
    first
      | exact Option.noConfusion h
      | (simp only [registry_dbrx, Option.some.injEq] at h; subst h; decide)

/-- `match_vicuna` never returns the "c4ai-command-r" template. -/
lemma match_vicuna_ne_c4ai (path : String) (id : Option String) (t : ChatTemplate)
    (h : match_vicuna path id = some t) : t ≠ c4ai_command_r_template := by
  unfold match_vicuna at h
  split_ifs at h <;>
    first
      | exact Option.noConfusion h
      | (simp only [registry_vicuna, Option.some.injEq] at h; subst h; decide)

/-- `match_llama2_chat` never returns the "c4ai-command-r" template. -/
lemma match_llama2_chat_ne_c4ai (path : String) (id : Option String) (t : ChatTemplate)
    (h : match_llama2_chat path id = some t) : t ≠ c4ai_command_r_template := by
  unfold match_llama2_chat at h
  split_ifs at h <;>
    first
      | exact Option.noConfusion h
      | (simp only [registry_llama2, Option.some.injEq] at h; subst h; decide)

/-- `match_llama3_instruct` never returns the "c4ai-command-r" template. -/
lemma match_llama3_instruct_ne_c4ai (path : String) (id : Option String) (t : ChatTemplate)
    (h : match_llama3_instruct path id = some t) : t ≠ c4ai_command_r_template := by
  unfold match_llama3_instruct at h
  split_ifs at h <;>
    first
      | exact Option.noConfusion h
      | (simp only [registry_llama3, Option.some.injEq] at h; subst h; decide)

/-- `match_chat_ml` never returns the "c4ai-command-r" template. -/
lemma match_chat_ml_ne_c4ai (path : String) (id : Option String) (t : ChatTemplate)
    (h : match_chat_ml path id = some t) : t ≠ c4ai_command_r_template := by
  unfold match_chat_ml at h
  split_ifs at h <;>
    first
      | exact Option.noConfusion h
      | (simp only [registry_chatml, Option.some.injEq] at h; subst h; decide)
      | (simp only [registry_chatml_llava, Option.some.injEq] at h; subst h; decide)

/-- `match_chat_yi` never returns the "c4ai-command-r" template. -/
lemma match_chat_yi_ne_c4ai (path : String) (id : Option String) (t : ChatTemplate)
    (h : match_chat_yi path id = some t) : t ≠ c4ai_command_r_template := by
  unfold match_chat_yi at h
  split_ifs at h <;>
    first
      | exact Option.noConfusion h
      | (simp only [registry_yi, Option.some.injEq] at h; subst h; decide)

/-- `match_gemma_it` never returns the "c4ai-command-r" template. -/
lemma match_gemma_it_ne_c4ai (path : String) (id : Option String) (t : ChatTemplate)
    (h : match_gemma_it path id = some t) : t ≠ c4ai_command_r_template := by
  unfold match_gemma_it at h
  split_ifs at h <;>
    first
      | exact Option.noConfusion h
      | (simp only [registry_gemma, Option.some.injEq] at h; subst h; decide)

/-- `match_ytchat_v12` never returns the "c4ai-command-r" template. -/
lemma match_ytchat_v12_ne_c4ai (path : String) (id : Option String) (t : ChatTemplate)
    (h : match_ytchat_v12 path id = some t) : t ≠ c4ai_command_r_template := by
  unfold match_ytchat_v12 at h
  split_ifs at h <;>
    first
      | exact Option.noConfusion h
      | (simp only [registry_yt12, Option.some.injEq] at h; subst h; decide)
      | (simp only [registry_yt13, Option.some.injEq] at h; subst h; decide)
      | (simp only [registry_yt16, Option.some.injEq] at h; subst h; decide)
      | (simp only [registry_yt17, Option.some.injEq] at h; subst h; decide)
      | (simp only [registry_yt18, Option.some.injEq] at h; subst h; decide)

/-- No registered matcher can return the "c4ai-command-r" template. -/
lemma registered_matcher_ne_c4ai :
    ∀ f ∈ matching_function_registry, ∀ (path : String) (id : Option String)
      (t : ChatTemplate), f path id = some t → t ≠ c4ai_command_r_template := by
  intro f hf
  simp only [matching_function_registry, List.mem_cons, List.not_mem_nil, or_false] at hf
  rcases hf with rfl | rfl | rfl | rfl | rfl | rfl | rfl | rfl
  · exact match_dbrx_ne_c4ai
  · exact match_vicuna_ne_c4ai
  · exact match_llama2_chat_ne_c4ai
  · exact match_llama3_instruct_ne_c4ai
  · exact match_chat_ml_ne_c4ai
  · exact match_chat_yi_ne_c4ai
  · exact match_gemma_it_ne_c4ai
  · exact match_ytchat_v12_ne_c4ai

/-- `C10`: the path "c4ai-command-r" resolves to the "default" template even
though a "c4ai-command-r" template is registered and `match_c4ai_command_r`
would match it: the matcher function carries no registration decorator, is
absent from `matching_function_registry`, and consequently no resolution ever
returns the "c4ai-command-r" template. -/
theorem c10_c4ai_template_unreachable :
    get_chat_template_by_model_path "c4ai-command-r" none = some default_template
    ∧ get_chat_template chat_template_registry "c4ai-command-r" = some c4ai_command_r_template
    ∧ match_c4ai_command_r "c4ai-command-r" none = some c4ai_command_r_template
    ∧ match_c4ai_command_r ∉ matching_function_registry
    ∧ ∀ (path : String) (id : Option String),
        get_chat_template_by_model_path path id ≠ some c4ai_command_r_template := by
  refine ⟨rfl, registry_c4ai, rfl, ?_, ?_⟩
  · intro hmem
    exact registered_matcher_ne_c4ai _ hmem "c4ai-command-r" none
      c4ai_command_r_template rfl rfl
  · intro path id h
    unfold get_chat_template_by_model_path at h
    cases hf : matching_function_registry.findSome? (fun f => f path id) with
    | some t =>
      rw [hf] at h
      injection h with h2
      subst h2
      obtain ⟨f, hfmem, hft⟩ := List.exists_of_findSome?_eq_some hf
      exact registered_matcher_ne_c4ai f hfmem path id _ hft rfl
    | none =>
      rw [hf, registry_default] at h
      exact absurd (Option.some.inj h) (by decide)
